import Mathlib

/-!
# CarbonLens — verification of the core query pipeline

Shallow embedding of the CarbonLens emissions-query pipeline
(`src/api/execution_layer.py`, `src/api/intent_extraction_layer.py`,
`src/api/conversation_layer.py`, `src/api/views_refactored.py`,
`src/api/schema.py`).

Modelling conventions:
* pandas numeric values become `Rat` (exact rationals); `NaN`/missing cells
  become `none : Option Rat`;
* Python `Optional` fields become `Option`; Python truthiness of optional
  ints/strings/lists is modelled explicitly (`truthyInt`, nonempty checks);
* the pydantic models of `schema.py` become structures, and the pydantic
  field validators are modelled as explicit checks where the code can raise;
* a function that can raise returns `Except String _`.
-/

namespace CarbonLens

/-! ## String helpers (Python `in`, `.lower()`) -/

/-- Python `str.lower` for a single character (ASCII, which covers all
column names, country names and keywords the code handles). -/
def charLower (c : Char) : Char :=
  if 'A' ≤ c && c ≤ 'Z' then Char.ofNat (c.toNat + 32) else c

/-- Python `str.lower` (ASCII). -/
def strLower (s : String) : String := String.mk (s.data.map charLower)

/-- Does `p` occur as a contiguous sublist starting at the head of `s`? -/
def sublistAt : List Char → List Char → Bool
  | [], _ => true
  | _ :: _, [] => false
  | p :: ps, c :: cs => p == c && sublistAt ps cs

/-- Does `p` occur anywhere as a contiguous sublist of `s`? -/
def containsSub (s p : List Char) : Bool :=
  match s with
  | [] => p.isEmpty
  | _ :: rest => sublistAt p s || containsSub rest p

/-- Python `pat in s` (substring containment). -/
def strContains (s pat : String) : Bool := containsSub s.data pat.data

/-- Python `s.startswith(p)`. -/
def strStartsWith (s p : String) : Bool := sublistAt p.data s.data

/-- Python `s.endswith(p)`. -/
def strEndsWith (s p : String) : Bool := sublistAt p.data.reverse s.data.reverse

/-- Drop leading whitespace characters. -/
def dropLeadingSpaces : List Char → List Char
  | [] => []
  | c :: cs => if c.isWhitespace then dropLeadingSpaces cs else c :: cs

/-- Python `str.strip()`. -/
def pyStrip (s : String) : String :=
  String.mk ((dropLeadingSpaces (dropLeadingSpaces s.data).reverse).reverse)

/-! ## Data model (`src/api/schema.py`) -/

/-- The `Gas` enum. -/
inductive Gas | co2 | methane | n2o
deriving DecidableEq, Repr

/-- Model of `Gas.value` (the string value of the enum member). -/
def Gas.value : Gas → String
  | .co2 => "co2" | .methane => "methane" | .n2o => "n2o"

/-- The `Sector` enum. -/
inductive Sector | total | cement | transport | energy | agriculture
deriving DecidableEq, Repr

/-- Model of `Sector.value`. -/
def Sector.value : Sector → String
  | .total => "total" | .cement => "cement" | .transport => "transport"
  | .energy => "energy" | .agriculture => "agriculture"

/-- The `Metric` enum. -/
inductive Metric
  | sum | average | median | min | max | std | variance | range | change | trend
deriving DecidableEq, Repr

/-- Model of `Metric.value`. -/
def Metric.value : Metric → String
  | .sum => "sum" | .average => "average" | .median => "median"
  | .min => "min" | .max => "max" | .std => "std" | .variance => "variance"
  | .range => "range" | .change => "change" | .trend => "trend"

/-- The `YearFilter` pydantic model (its year-range validator is modelled
separately by `validYearOpt` / `validateYearFilter`, since pydantic only
runs it at construction time). -/
structure YearFilter where
  year : Option Int := none
  year_min : Option Int := none
  year_max : Option Int := none
deriving DecidableEq, Repr

/-- The `validate_year` field validator of `YearFilter`: a populated year
value must lie in [1800, 2100]. -/
def validYearOpt : Option Int → Bool
  | none => true
  | some y => 1800 ≤ y && y ≤ 2100

/-- The `QueryIntent` pydantic model. -/
structure QueryIntent where
  country : Option String := none
  gas : Option Gas := none
  sector : Option Sector := none
  metric : Option Metric := none
  metrics : Option (List Metric) := none
  year_filter : Option YearFilter := none
  is_greeting : Bool := false
  is_small_talk : Bool := false
  is_explanatory : Bool := false
  low_confidence : Bool := false
  needs_clarification : Bool := false
  clarification_question : Option String := none
deriving DecidableEq, Repr

/-- The `ExecutionResult` pydantic model.  `values` is an insertion-ordered
mapping (Python dict) from metric name to value-or-None. -/
structure ExecutionResult where
  value : Option Rat := none
  values : Option (List (String × Option Rat)) := none
  unit : Option String := none
  applied_filters : List (String × String) := []
  record_count : Nat := 0
  incomputable_metrics : Option (List String) := none
  error : Option String := none
deriving DecidableEq, Repr

/-! ## Dataset model

The OWID dataframe: a list of column names plus rows.  Every row carries
the `country` and `year` cells explicitly (the dataset always has these two
columns; `_prepare_dataframe` coerces `year` to numeric, `none` = NaN) and
an association list for the remaining (numeric) columns, `none` = NaN. -/

structure Row where
  country : String
  year : Option Int
  vals : List (String × Option Rat)
deriving DecidableEq, Repr

structure DataFrame where
  columns : List String
  rows : List Row
deriving DecidableEq, Repr

/-- Lookup of `row[col]` for a numeric column: missing entry = NaN = `none`. -/
def lookupVal (r : Row) (col : String) : Option Rat :=
  match r.vals.find? (fun p => p.1 == col) with
  | some p => p.2
  | none => none

/-! ## Column Resolver (`ExecutionLayer._get_column_name`) -/

/-- Inner loop `for col in columns: if col.lower() == candidate.lower(): return col`. -/
def findExactCol (cols : List String) (cand : String) : Option String :=
  cols.find? (fun col => strLower col == strLower cand)

/-- The `sector in {TOTAL, None}` branch: exact gas name, then the suffix
candidates `""`, `"_emissions"`, `"_per_capita"`. -/
def totalColumn (cols : List String) (gs : String) : Option String :=
  match cols.find? (fun col => strLower col == gs) with
  | some c => some c
  | none =>
    match findExactCol cols (gs ++ "") with
    | some c => some c
    | none =>
      match findExactCol cols (gs ++ "_emissions") with
      | some c => some c
      | none => findExactCol cols (gs ++ "_per_capita")

/-- The final fallback (TOTAL/None only): gas name as exact / `gas_` prefixed /
`_gas` suffixed match, excluding sector-specific columns. -/
def fallbackColumn (cols : List String) (gs : String) : Option String :=
  cols.find? (fun col =>
    let cl := strLower col
    (cl == gs || strStartsWith cl (gs ++ "_") || strEndsWith cl ("_" ++ gs)) &&
    !strContains cl "cement" && !strContains cl "coal" &&
    !strContains cl "oil" && !strContains cl "gas")

/-- The `sector = CEMENT` branch. -/
def cementColumn (cols : List String) (gs : String) : Option String :=
  match findExactCol cols "cement_co2" with
  | some c => some c
  | none =>
    match findExactCol cols "cement_co2_per_capita" with
    | some c => some c
    | none => cols.find? (fun col =>
        strContains (strLower col) "cement" && strContains (strLower col) gs)

/-- The `sector in {TRANSPORT, ENERGY}` branches (keyword + gas token). -/
def keywordColumn (cols : List String) (kw gs : String) : Option String :=
  cols.find? (fun col => strContains (strLower col) kw && strContains (strLower col) gs)

/-- The `sector = AGRICULTURE` branch. -/
def agricultureColumn (cols : List String) (gs : String) : Option String :=
  cols.find? (fun col =>
    (strContains (strLower col) "agriculture" || strContains (strLower col) "agricultural") &&
    strContains (strLower col) gs)

/-- Model of `ExecutionLayer._get_column_name`: deterministic (gas, sector) → column
mapping over the dataframe's column names. -/
def getColumnName (cols : List String) (gas : Option Gas) (sector : Option Sector) :
    Option String :=
  match gas with
  | none => none
  | some g =>
    let gs := strLower g.value
    let primary : Option String :=
      if sector = some Sector.total || sector = none then totalColumn cols gs
      else if sector = some Sector.cement then cementColumn cols gs
      else if sector = some Sector.transport then keywordColumn cols "transport" gs
      else if sector = some Sector.energy then keywordColumn cols "energy" gs
      else agricultureColumn cols gs
    match primary with
    | some c => some c
    | none =>
      if sector = some Sector.total || sector = none then fallbackColumn cols gs
      else none

/-- Model of `ExecutionLayer._get_unit`: unit derived from the resolved column name. -/
def getUnit (col : String) : String :=
  if strContains (strLower col) "per_capita" then "tonnes per capita"
  else if strContains (strLower col) "co2" then "million tonnes"
  else "tonnes"

/-! ## Filter application (`ExecutionLayer.execute`, lines 40–62) -/

/-- Python truthiness of an optional int (`if intent.year_filter.year:`). -/
def truthyInt : Option Int → Bool
  | none => false
  | some v => v != 0

/-- Test `result_df['year'] >= a` for one row: a NaN year never satisfies a
comparison. -/
def yearGe (r : Row) (a : Int) : Bool :=
  match r.year with
  | some y => a ≤ y
  | none => false

/-- Test `result_df['year'] <= b` for one row. -/
def yearLe (r : Row) (b : Int) : Bool :=
  match r.year with
  | some y => y ≤ b
  | none => false

/-- The country filter (`if intent.country:` — Python truthiness, so an
empty string is skipped like `None`). -/
def applyCountryFilter (rows : List Row) (c : Option String) :
    List Row × List (String × String) :=
  match c with
  | some cc =>
    if cc.isEmpty then (rows, [])
    else (rows.filter (fun r => r.country == cc), [("country", cc)])
  | none => (rows, [])

/-- The year filter: `year` (equality) takes the first branch, then
`year_min and year_max`, then `year_min`, then `year_max`; each guard uses
Python truthiness of the optional int. -/
def applyYearFilter (rows : List Row) (af : List (String × String))
    (yf : Option YearFilter) : List Row × List (String × String) :=
  match yf with
  | none => (rows, af)
  | some f =>
    if truthyInt f.year then
      let y := f.year.getD 0
      (rows.filter (fun r => r.year == some y), af ++ [("year", toString y)])
    else if truthyInt f.year_min && truthyInt f.year_max then
      let a := f.year_min.getD 0
      let b := f.year_max.getD 0
      (rows.filter (fun r => yearGe r a && yearLe r b),
       af ++ [("year_range", toString a ++ "-" ++ toString b)])
    else if truthyInt f.year_min then
      let a := f.year_min.getD 0
      (rows.filter (fun r => yearGe r a), af ++ [("year_min", toString a)])
    else if truthyInt f.year_max then
      let b := f.year_max.getD 0
      (rows.filter (fun r => yearLe r b), af ++ [("year_max", toString b)])
    else (rows, af)

/-- Country filter followed by year filter: the filtered row set and the
`applied_filters` mapping of `execute`. -/
def filteredState (df : DataFrame) (intent : QueryIntent) :
    List Row × List (String × String) :=
  let s1 := applyCountryFilter df.rows intent.country
  applyYearFilter s1.1 s1.2 intent.year_filter

/-! ## Metric Engine (`ExecutionLayer.execute`, lines 85–190) -/

/-- Model of `values.sum()`. -/
def listSum (l : List Rat) : Rat := l.foldl (· + ·) 0

/-- Model of `values.mean()`: NaN (= `none`) on an empty series. -/
def listMean (l : List Rat) : Option Rat :=
  if l.isEmpty then none else some (listSum l / (l.length : Rat))

/-- Insert into a sorted list (ascending), keeping duplicates. -/
def insertSorted (x : Rat) : List Rat → List Rat
  | [] => [x]
  | y :: ys => if x ≤ y then x :: y :: ys else y :: insertSorted x ys

/-- Ascending sort of the series values. -/
def sortRats (l : List Rat) : List Rat := l.foldr insertSorted []

/-- Model of `values.median()`: middle element, or mean of the two middle elements. -/
def listMedian (l : List Rat) : Option Rat :=
  if l.isEmpty then none
  else
    let s := sortRats l
    let n := s.length
    if n % 2 = 1 then s[n / 2]?
    else
      match s[n / 2 - 1]?, s[n / 2]? with
      | some a, some b => some ((a + b) / 2)
      | _, _ => none

/-- Model of `values.min()`: NaN on an empty series. -/
def listMin : List Rat → Option Rat
  | [] => none
  | x :: xs => some (xs.foldl min x)

/-- Model of `values.max()`. -/
def listMax : List Rat → Option Rat
  | [] => none
  | x :: xs => some (xs.foldl max x)

/-- Model of `values.var(ddof=0)`: population variance. -/
def listVar (l : List Rat) : Option Rat :=
  match listMean l with
  | none => none
  | some mu => some (listSum (l.map (fun x => (x - mu) * (x - mu))) / (l.length : Rat))

/-- Model of `values.std(ddof=0)` = sqrt of the population variance.  Exact real
square roots are not rational, so the square root is modelled by the
integer-square-root based `Rat.sqrt`; no claim depends on the numeric value
of `std`, only on its definedness. -/
def listStd (l : List Rat) : Option Rat :=
  match listVar l with
  | none => none
  | some v => some (Rat.sqrt v)

/-- Model of `float(values.max() - values.min())`. -/
def listRange (l : List Rat) : Option Rat :=
  match listMax l, listMin l with
  | some mx, some mn => some (mx - mn)
  | _, _ => none

/-- Insert a year into a sorted distinct list of years (ascending):
the groupby index. -/
def insertYear (y : Int) : List Int → List Int
  | [] => [y]
  | z :: zs =>
    if y < z then y :: z :: zs
    else if y = z then z :: zs
    else z :: insertYear y zs

/-- Model of `result_df[[col, 'year']].dropna(...).groupby('year')[col].mean().sort_index()`:
the year-indexed series, ascending by year, with per-year mean aggregation. -/
def tsOf (rows : List Row) (col : String) : List (Int × Rat) :=
  let pairs := rows.filterMap (fun r =>
    match r.year, lookupVal r col with
    | some y, some v => some (y, v)
    | _, _ => none)
  let years := pairs.foldl (fun acc p => insertYear p.1 acc) []
  years.map (fun y =>
    (y, (listMean (pairs.filterMap (fun p => if p.1 == y then some p.2 else none))).getD 0))

/-- Value `ts.iloc[0]` (the first-year aggregate); total with default 0, only used
under a `2 ≤ length` guard. -/
def firstVal : List (Int × Rat) → Rat
  | [] => 0
  | p :: _ => p.2

/-- Value `ts.iloc[-1]` (the last-year aggregate). -/
def lastVal (l : List (Int × Rat)) : Rat :=
  match l.getLast? with
  | some p => p.2
  | none => 0

/-- Model of `np.polyfit(years, vals, 1)[0]`: the ordinary-least-squares slope of
value against year. -/
def olsSlope (l : List (Int × Rat)) : Rat :=
  let n : Rat := (l.length : Rat)
  let sx := l.foldl (fun a p => a + (p.1 : Rat)) 0
  let sy := l.foldl (fun a p => a + p.2) 0
  let sxy := l.foldl (fun a p => a + (p.1 : Rat) * p.2) 0
  let sxx := l.foldl (fun a p => a + (p.1 : Rat) * (p.1 : Rat)) 0
  (n * sxy - sx * sy) / (n * sxx - sx * sx)

/-- Python-dict assignment `d[k] = v`: overwrite in place if the key exists,
else append (insertion order preserved). -/
def dictSet (d : List (String × Option Rat)) (k : String) (v : Option Rat) :
    List (String × Option Rat) :=
  match d with
  | [] => [(k, v)]
  | p :: ps => if p.1 == k then (k, v) :: ps else p :: dictSet ps k v

/-- Python-dict lookup: `some v` when the key is present (with `v` the
stored value-or-None), `none` when the key is absent. -/
def dictLookup (d : List (String × Option Rat)) (k : String) : Option (Option Rat) :=
  match d with
  | [] => none
  | p :: ps => if p.1 == k then some p.2 else dictLookup ps k

/-- Model of `metrics_to_compute`: prefer a nonempty `intent.metrics` (Python
truthiness: an empty list falls through), else the single `intent.metric`,
else `[SUM]`. -/
def metricsToCompute (intent : QueryIntent) : List Metric :=
  match intent.metrics with
  | some (m :: ms) => m :: ms
  | _ =>
    match intent.metric with
    | some m => [m]
    | none => [Metric.sum]

/-- One iteration of the metric loop: computes metric `m` over the
non-null values `vals` (and the year series `ts` for change/trend),
records the result under the metric's name (or `None` plus an
`incomputable` entry), and — for `change` with a nonzero first-year
aggregate — first stores the derived `change_pct`. -/
def metricStep (vals : List Rat) (ts : Option (List (Int × Rat)))
    (acc : List (String × Option Rat) × List String) (m : Metric) :
    List (String × Option Rat) × List String :=
  let name := m.value
  let step : List (String × Option Rat) × Option Rat :=
    match m with
    | .sum => (acc.1, some (listSum vals))
    | .average => (acc.1, listMean vals)
    | .median => (acc.1, listMedian vals)
    | .min => (acc.1, listMin vals)
    | .max => (acc.1, listMax vals)
    | .std => (acc.1, listStd vals)
    | .variance => (acc.1, listVar vals)
    | .range => (acc.1, listRange vals)
    | .change =>
      match ts with
      | some l =>
        if 2 ≤ l.length then
          let first := firstVal l
          let last := lastVal l
          if first == 0 then (acc.1, some (last - first))
          else
            (dictSet acc.1 (name ++ "_pct") (some ((last - first) / first * 100)),
             some (last - first))
        else (acc.1, none)
      | none => (acc.1, none)
    | .trend =>
      match ts with
      | some l => if 2 ≤ l.length then (acc.1, some (olsSlope l)) else (acc.1, none)
      | none => (acc.1, none)
  (dictSet step.1 name step.2,
   match step.2 with
   | none => acc.2 ++ [name]
   | some _ => acc.2)

/-- The metric loop of `execute` (lines 113–169): returns the `results`
dict and the `incomputable` list. -/
def metricLoop (vals : List Rat) (ts : Option (List (Int × Rat)))
    (ms : List Metric) : List (String × Option Rat) × List String :=
  ms.foldl (metricStep vals ts) ([], [])

/-- The message of the zero-rows early return. -/
def noDataMsg : String := "No data available for the specified filters"

/-- The message of the column-resolution-failure early return. -/
def colErrMsg (c : Option String) : String :=
  "Column '" ++ (match c with | some s => s | none => "None") ++ "' not found in dataset"

/-- The error produced when constructing `ExecutionResult(values=results, ...)`
raises, caught by `execute`'s outer `except` (`"Execution failed: {e}"`;
the pydantic error text is abbreviated). -/
def pydanticErrMsg : String := "Execution failed: validation error for ExecutionResult"

/-- Value of `next(iter(results.values()))` when the dict has exactly one entry,
else the untouched default `None`: the single-metric mirror of the
`value` field. -/
def singleValue (l : List (String × Option Rat)) : Option Rat :=
  match l with
  | [(_, v)] => v
  | _ => none

/-- Final assembly of the `ExecutionResult` (lines 176–190).
`ExecutionResult` declares `values: Optional[Dict[str, float]]`, and
pydantic v2 rejects `None` as a `float`, so a `results` dict holding any
`None` raises at construction; `execute`'s outer `except` then returns the
"Execution failed" result (all other fields at their defaults, with the
`applied_filters` computed so far).  When construction succeeds and the
dict has exactly one entry, `value` mirrors it. -/
def assembleResult (af : List (String × String)) (rc : Nat) (unit : String)
    (results : List (String × Option Rat)) (incomp : List String) : ExecutionResult :=
  if results.all (fun p => p.2.isSome) then
    { value := singleValue results,
      values := some results, unit := some unit,
      applied_filters := af, record_count := rc,
      incomputable_metrics := if incomp.isEmpty then none else some incomp }
  else
    { applied_filters := af, error := some pydanticErrMsg }

/-- Model of `ExecutionLayer.execute`: apply the country and year filters, resolve
the column, extract the non-null values, and compute the requested
metrics. -/
def execute (df : DataFrame) (intent : QueryIntent) : ExecutionResult :=
  let st := filteredState df intent
  let rows := st.1
  let af := st.2
  match getColumnName df.columns intent.gas intent.sector with
  | none => { applied_filters := af, record_count := rows.length,
              error := some (colErrMsg none) }
  | some col =>
    if col.isEmpty || !df.columns.contains col then
      { applied_filters := af, record_count := rows.length,
        error := some (colErrMsg (some col)) }
    else
      let vals := rows.filterMap (fun r => lookupVal r col)
      if vals.isEmpty then
        { value := none, applied_filters := af, record_count := 0,
          error := some noDataMsg }
      else
        let ts : Option (List (Int × Rat)) :=
          if df.columns.contains "year" then some (tsOf rows col) else none
        let res := metricLoop vals ts (metricsToCompute intent)
        assembleResult af vals.length (getUnit col) res.1 res.2

/-! ## Router (`QueryView.post` in `views_refactored.py` and
`is_underspecified` in `conversation_layer.py`) -/

/-- The outcome states of the query endpoint's routing decision. -/
inductive RouteState
  | greeting
  | smallTalk
  | explanatory
  | clarificationUnderspecified
  | clarificationValidation
  | invalidRequest
  | executionError
  | lowConfidenceData
  | lowConfidenceFallback
  | incomputableFallback
  | emptyFallback
  | data
deriving DecidableEq, Repr

/-- The validator's output as consumed by the view (`validate_intent`
returns a dict; the view only inspects success / needs_clarification /
normalized intent / low_confidence). -/
inductive ValidationOutcomeModel
  | clarification (question : String)
  | invalid (errors : List String)
  | normalized (qi : QueryIntent) (lowConfidence : Bool)
deriving DecidableEq, Repr

/-- Model of `conversation_layer.is_underspecified`: true when the intent has no
country, no year value, no metric(s) and no sector (each tested with
Python truthiness: empty string / empty list count as absent; the year
fields are tested with `is not None`). -/
def is_underspecified (intent : QueryIntent) : Bool :=
  let has_country :=
    match intent.country with
    | some c => !c.isEmpty
    | none => false
  let has_year :=
    match intent.year_filter with
    | none => false
    | some yf => yf.year.isSome || yf.year_min.isSome || yf.year_max.isSome
  let has_metric :=
    intent.metric.isSome ||
    (match intent.metrics with
     | some l => !l.isEmpty
     | none => false)
  let has_sector := intent.sector.isSome
  !(has_country || has_year || has_metric || has_sector)

/-- Model of `values = getattr(result, 'values', {}) or {}` and
`has_computed = any(v is not None for v in values.values())`. -/
def hasComputedValues (r : ExecutionResult) : Bool :=
  (r.values.getD []).any (fun p => p.2.isSome)

/-- The routing of an execution result in `QueryView.post`
(lines 247–370), in source order: error → low-confidence →
incomputable-metrics fallback → zero-records fallback → data. -/
def routeAfterExecution (lowConfidence : Bool) (r : ExecutionResult) : RouteState :=
  if r.error.isSome then .executionError
  else if lowConfidence then
    if r.record_count > 0 && hasComputedValues r then .lowConfidenceData
    else .lowConfidenceFallback
  else if !(r.incomputable_metrics.getD []).isEmpty then .incomputableFallback
  else if r.record_count == 0 then .emptyFallback
  else .data

/-- The routing of `QueryView.post` after intent extraction: greeting →
small talk → explanatory → underspecified-clarification gate → validation
→ execution.  The validator and executor are passed as functions so that
a route decided before them provably does not depend on them. -/
def routePost (validate : QueryIntent → ValidationOutcomeModel)
    (exec : QueryIntent → ExecutionResult) (intent : QueryIntent) : RouteState :=
  if intent.is_greeting then .greeting
  else if intent.is_small_talk then .smallTalk
  else if intent.is_explanatory then .explanatory
  else if is_underspecified intent then .clarificationUnderspecified
  else
    match validate intent with
    | .clarification _ => .clarificationValidation
    | .invalid _ => .invalidRequest
    | .normalized qi lc => routeAfterExecution lc (exec qi)

/-! ## Heuristic Extractor (`IntentExtractionLayer.extract_intent`,
no-provider path, lines 40–131)

The Python regular expressions are modelled by dedicated scanners over the
character list, reproducing `re.search` leftmost-match semantics for the
concrete patterns used by the code. -/

/-- Schema metadata as consumed by the extractor (`get_schema_metadata`):
the country list, and `year_range.max` of the dataset.  The gas list is
always the `Gas` enum values. -/
structure SchemaMetadata where
  countries : List String
  yearMax : Option Int
deriving DecidableEq, Repr

/-- Regex `\w` (word character), ASCII. -/
def isWordChar (c : Char) : Bool := c.isAlpha || c.isDigit || c == '_'

/-- Regex `\s` (whitespace). -/
def isSpaceChar (c : Char) : Bool := c.isWhitespace

/-- Numeric value of a digit character. -/
def digitVal (c : Char) : Nat := c.toNat - '0'.toNat

/-- Try to match `\b(19|20)\d{2}\b` at the current position (`prev` is the
character before the position, `none` at the start of the string). -/
def bareYearAt (prev : Option Char) (cs : List Char) : Option Nat :=
  match cs with
  | a :: b :: c :: d :: rest =>
    if (match prev with | some p => !isWordChar p | none => true)
        && ((a == '1' && b == '9') || (a == '2' && b == '0'))
        && c.isDigit && d.isDigit
        && (match rest with | [] => true | e :: _ => !isWordChar e)
    then some (1000 * digitVal a + 100 * digitVal b + 10 * digitVal c + digitVal d)
    else none
  | _ => none

/-- Model of `re.search(r'\b(19|20)\d{2}\b', uq)`: leftmost occurrence. -/
def searchBareYear1920 : Option Char → List Char → Option Nat
  | _, [] => none
  | prev, c :: cs =>
    match bareYearAt prev (c :: cs) with
    | some y => some y
    | none => searchBareYear1920 (some c) cs

/-- Try to match `\b(18|19|20)\d{2}\b` at the current position.  This
follows the spec's words (the spec's bare-year pattern includes the `18`
alternative, the code's does not). -/
def bareYearSpecAt (prev : Option Char) (cs : List Char) : Option Nat :=
  match cs with
  | a :: b :: c :: d :: rest =>
    if (match prev with | some p => !isWordChar p | none => true)
        && ((a == '1' && (b == '8' || b == '9')) || (a == '2' && b == '0'))
        && c.isDigit && d.isDigit
        && (match rest with | [] => true | e :: _ => !isWordChar e)
    then some (1000 * digitVal a + 100 * digitVal b + 10 * digitVal c + digitVal d)
    else none
  | _ => none

/-- Leftmost occurrence of the spec's bare-year pattern `(18|19|20)\d{2}`. -/
def searchBareYearSpec : Option Char → List Char → Option Nat
  | _, [] => none
  | prev, c :: cs =>
    match bareYearSpecAt prev (c :: cs) with
    | some y => some y
    | none => searchBareYearSpec (some c) cs

/-- Match a literal word at the head of the input, returning the rest. -/
def matchLit : List Char → List Char → Option (List Char)
  | [], cs => some cs
  | _ :: _, [] => none
  | l :: ls, c :: cs => if c == l then matchLit ls cs else none

/-- Skip a maximal run of whitespace. -/
def skipAllSpaces : List Char → List Char
  | [] => []
  | c :: cs => if isSpaceChar c then skipAllSpaces cs else c :: cs

/-- Regex `\s+`: at least one whitespace character, consumed greedily. -/
def skipSpaces1 : List Char → Option (List Char)
  | [] => none
  | c :: cs => if isSpaceChar c then some (skipAllSpaces cs) else none

/-- Regex `(\d{4})`: exactly four digits. -/
def matchDigits4 : List Char → Option (Nat × List Char)
  | a :: b :: c :: d :: rest =>
    if a.isDigit && b.isDigit && c.isDigit && d.isDigit
    then some (1000 * digitVal a + 100 * digitVal b + 10 * digitVal c + digitVal d, rest)
    else none
  | _ => none

/-- Try to match `w1\s+(\d{4})\s+w2\s+(\d{4})` at the current position. -/
def rangePatternAt (w1 w2 : List Char) (cs : List Char) : Option (Nat × Nat) :=
  (matchLit w1 cs).bind fun r1 =>
  (skipSpaces1 r1).bind fun r2 =>
  (matchDigits4 r2).bind fun p1 =>
  (skipSpaces1 p1.2).bind fun r4 =>
  (matchLit w2 r4).bind fun r5 =>
  (skipSpaces1 r5).bind fun r6 =>
  (matchDigits4 r6).map fun p2 => (p1.1, p2.1)

/-- Generic `re.search` for a two-keyword year-range pattern: leftmost match. -/
def searchRange (w1 w2 : List Char) : List Char → Option (Nat × Nat)
  | [] => none
  | c :: cs =>
    match rangePatternAt w1 w2 (c :: cs) with
    | some p => some p
    | none => searchRange w1 w2 cs

/-- Model of `re.search(r'from\s+(\d{4})\s+to\s+(\d{4})', uq)`. -/
def searchFromTo (uq : String) : Option (Nat × Nat) :=
  searchRange "from".data "to".data uq.data

/-- Model of `re.search(r'between\s+(\d{4})\s+and\s+(\d{4})', uq)`. -/
def searchBetween (uq : String) : Option (Nat × Nat) :=
  searchRange "between".data "and".data uq.data

/-- Greedy `\d+` after its first (already checked) digit. -/
def takeDigitsAux (acc : Nat) : List Char → Nat × List Char
  | [] => (acc, [])
  | c :: rest =>
    if c.isDigit then takeDigitsAux (10 * acc + digitVal c) rest else (acc, c :: rest)

/-- Regex `(\d+)`: at least one digit, consumed greedily. -/
def takeDigits1 : List Char → Option (Nat × List Char)
  | [] => none
  | c :: rest => if c.isDigit then some (takeDigitsAux (digitVal c) rest) else none

/-- Try to match `last\s+(\d+)\s+years?` at the current position (the
trailing `s?` is optional, so matching `year` suffices). -/
def lastNAt (cs : List Char) : Option Nat :=
  (matchLit "last".data cs).bind fun r1 =>
  (skipSpaces1 r1).bind fun r2 =>
  (takeDigits1 r2).bind fun p =>
  (skipSpaces1 p.2).bind fun r4 =>
  (matchLit "year".data r4).map fun _ => p.1

/-- Model of `re.search(r'last\s+(\d+)\s+years?', uq)`: leftmost match. -/
def searchLastNAux : List Char → Option Nat
  | [] => none
  | c :: cs =>
    match lastNAt (c :: cs) with
    | some n => some n
    | none => searchLastNAux cs

/-- Leftmost `last N years` match in the query. -/
def searchLastN (uq : String) : Option Nat :=
  searchLastNAux uq.data

/-- The year-reference parsing of the heuristic path (lines 86–107):
`from X to Y` / `between X and Y`, else `last N years`, else `last year`,
else a bare `(19|20)\d{2}` token.  Returns the `year_filter` dict stored
in the intent (or `none` when no pattern applied). -/
def parseYearFilter (uq : String) (yrmax : Option Int) : Option YearFilter :=
  match (match searchFromTo uq with
         | some p => some p
         | none => searchBetween uq) with
  | some p =>
    some { year_min := some (Min.min (p.1 : Int) (p.2 : Int)),
           year_max := some (Max.max (p.1 : Int) (p.2 : Int)) }
  | none =>
    match searchLastN uq, yrmax with
    | some n, some ym =>
      some { year_min := some (Max.max (ym - (n : Int) + 1) 0), year_max := some ym }
    | _, _ =>
      if strContains uq "last year" && yrmax.isSome then
        some { year := yrmax }
      else
        match searchBareYear1920 none uq.data with
        | some y => some { year := some (y : Int) }
        | none => none

/-- The ordered phrase → metric table of the heuristic path (a Python dict
literal, iterated in insertion order). -/
def metricPhraseTable : List (String × Metric) :=
  [("average", .average), ("avg", .average), ("mean", .average),
   ("sum", .sum), ("total", .sum),
   ("median", .median),
   ("max", .max), ("maximum", .max), ("highest", .max),
   ("min", .min), ("minimum", .min), ("lowest", .min),
   ("std", .std), ("standard deviation", .std), ("spread", .std),
   ("variance", .variance), ("variation", .variance),
   ("trend", .trend), ("over time", .trend),
   ("change", .change), ("growth", .change), ("increase", .change),
   ("range", .range), ("difference", .range)]

/-- Collect the metrics whose phrases occur in the query, in first-seen
table order, without duplicates. -/
def detectMetrics (uq : String) : List Metric :=
  metricPhraseTable.foldl
    (fun acc p =>
      if strContains uq p.1 && !acc.contains p.2 then acc ++ [p.2] else acc)
    []

/-- The computation keywords of the heuristic path's flag logic. -/
def computeKw : List String :=
  ["average", "avg", "mean", "sum", "total", "trend", "compare", "versus", "vs",
   "per capita", "rate", "highest", "lowest", "max", "min", "median", "std",
   "variance", "change", "range"]

/-- The explanation keywords of the heuristic path. -/
def explainKw : List String :=
  ["why", "how", "cause", "causes", "explain", "reason", "because", "impact",
   "affect", "describe", "what are", "what is", "tell me about", "types of", "define"]

/-- The general-question phrases of the heuristic path. -/
def generalPhrases : List String :=
  ["what are", "what is", "tell me about", "describe", "types of"]

/-- The greeting alternatives of
`^(hi|hello|hey|good morning|good afternoon|good evening)[\.!?\s]*$`. -/
def greetingWords : List String :=
  ["hi", "hello", "hey", "good morning", "good afternoon", "good evening"]

/-- Does the whole (stripped) text match the short-greeting pattern?  One
of the alternatives as a prefix, followed only by `.`, `!`, `?` or
whitespace. -/
def isGreetingText (s : String) : Bool :=
  greetingWords.any (fun w =>
    sublistAt w.data s.data &&
    (s.data.drop w.data.length).all (fun c => c == '.' || c == '!' || c == '?' || isSpaceChar c))

/-- The `validate_year` pydantic validator applied to all three fields of
a `year_filter` dict at `QueryIntent(**intent_dict)` construction: a
populated year outside [1800, 2100] raises. -/
def validateYearFilter (yf : Option YearFilter) : Except String Unit :=
  match yf with
  | none => .ok ()
  | some f =>
    if validYearOpt f.year && validYearOpt f.year_min && validYearOpt f.year_max
    then .ok ()
    else .error "Year must be between 1800 and 2100"

/-- Model of `IntentExtractionLayer.extract_intent`, no-provider heuristic path
(lines 40–131): infer country, gas, metrics, the default sector, the year
filter and the conversational flags, then construct the `QueryIntent`.
The construction runs the pydantic year validator; since this path has no
`try/except`, a validator failure propagates (modelled as `.error`). -/
def extractIntentHeuristic (userQuery : String) (schema : SchemaMetadata) :
    Except String QueryIntent :=
  let uq := strLower userQuery
  let country := (schema.countries.take 200).find? (fun c =>
    !c.isEmpty && strContains uq (strLower c))
  let gasFromList := [Gas.co2, Gas.methane, Gas.n2o].find? (fun g =>
    strContains uq (strLower g.value))
  let gas :=
    match gasFromList with
    | some g => some g
    | none =>
      if strContains uq "carbon dioxide" || strContains uq "co₂" || strContains uq "co2"
      then some Gas.co2 else none
  let detected := detectMetrics uq
  let metricsOpt : Option (List Metric) :=
    match detected with
    | [] => none
    | l => some l
  let metricOpt : Option Metric :=
    match detected with
    | [] => none
    | m :: _ => some m
  let sector : Option Sector :=
    match gas with
    | some Gas.co2 => some Sector.total
    | _ => none
  let yf := parseYearFilter uq schema.yearMax
  let anyCompute := computeKw.any (fun w => strContains uq w)
  let isExplanatory :=
    (explainKw.any (fun w => strContains uq w)) && !anyCompute
  let isGeneral :=
    (generalPhrases.any (fun p => strContains uq p)) &&
    !((["co2", "methane", "n2o"] ++ computeKw).any (fun t => strContains uq t))
  let hasDataTokens :=
    country.isSome || gas.isSome || metricOpt.isSome ||
    (match metricsOpt with | some l => !l.isEmpty | none => false) || yf.isSome
  let isGreeting := isGreetingText (pyStrip uq) && !hasDataTokens
  let needsClar :=
    anyCompute &&
    ((match country with | some c => c.isEmpty | none => true) || gas.isNone)
  match validateYearFilter yf with
  | .error e => .error e
  | .ok _ =>
    .ok { country := country, gas := gas, sector := sector,
          metric := metricOpt, metrics := metricsOpt, year_filter := yf,
          is_greeting := isGreeting, is_small_talk := false,
          is_explanatory := isExplanatory || isGeneral,
          low_confidence := false,
          needs_clarification := needsClar, clarification_question := none }

/-! ## Spec-side definitions and concrete instances used by the claims -/

/-- The unit-derivation rule as worded by the spec: "contains per_capita →
tonnes per capita; else contains the gas token → million tonnes; else →
tonnes" (for the requested gas). -/
def unitSpecC7 (col : String) (g : Gas) : String :=
  if strContains (strLower col) "per_capita" then "tonnes per capita"
  else if strContains (strLower col) (strLower g.value) then "million tonnes"
  else "tonnes"

/-- The amended unit-derivation rule: the gas-token test is a literal
`"co2"` test, independent of the requested gas. -/
def unitSpecC7Amended (col : String) (_g : Gas) : String :=
  if strContains (strLower col) "per_capita" then "tonnes per capita"
  else if strContains (strLower col) "co2" then "million tonnes"
  else "tonnes"

/-- A two-row OWID-style dataframe: China co2 = 1000 (2020), 1100 (2021). -/
def dfChina : DataFrame :=
  { columns := ["country", "year", "co2"],
    rows := [{ country := "China", year := some 2020, vals := [("co2", some 1000)] },
             { country := "China", year := some 2021, vals := [("co2", some 1100)] }] }

/-- A one-year dataframe: China co2 = 1000 (2020 only). -/
def dfChinaOneYear : DataFrame :=
  { columns := ["country", "year", "co2"],
    rows := [{ country := "China", year := some 2020, vals := [("co2", some 1000)] }] }

/-- An intent whose country filter matches no row of `dfChina`. -/
def intentFrance : QueryIntent :=
  { country := some "France", gas := some .co2, sector := some .total,
    metric := some .sum }

/-- A China/co2 sum intent. -/
def intentChinaSum : QueryIntent :=
  { country := some "China", gas := some .co2, sector := some .total,
    metric := some .sum }

/-- A China/co2 intent requesting the metrics [change, sum]. -/
def intentChinaChangeSum : QueryIntent :=
  { country := some "China", gas := some .co2, sector := some .total,
    metrics := some [.change, .sum] }

/-- A China/co2 intent requesting exactly one metric: change. -/
def intentChinaChange : QueryIntent :=
  { country := some "China", gas := some .co2, sector := some .total,
    metrics := some [.change] }

/-! ## Theorems -/

attribute [local semireducible] Rat.add Rat.mul Rat.inv Rat.sub

/-! ### Helper lemmas -/

theorem dictLookup_dictSet_self (d : List (String × Option Rat)) (k : String)
    (v : Option Rat) : dictLookup (dictSet d k v) k = some v := by
  induction d with
  | nil => simp [dictSet, dictLookup]
  | cons p ps ih =>
    by_cases h : p.1 = k
    · simp [dictSet, dictLookup, h]
    · simp only [dictSet, dictLookup]
      rw [if_neg (by simpa using h)]
      simpa [dictLookup, h] using ih

theorem dictLookup_dictSet_ne (d : List (String × Option Rat)) (k k2 : String)
    (v : Option Rat) (h : k ≠ k2) :
    dictLookup (dictSet d k v) k2 = dictLookup d k2 := by
  induction d with
  | nil => simp [dictSet, dictLookup, h]
  | cons p ps ih =>
    by_cases h1 : p.1 = k
    · simp [dictSet, dictLookup, h1, h]
    · simp only [dictSet, dictLookup]
      rw [if_neg (by simpa using h1)]
      by_cases h2 : p.1 = k2
      · simp [dictLookup, h2]
      · simpa [dictLookup, h2] using ih

/-! ### C3 — `year` takes precedence over `year_min`/`year_max` -/

/-- C3: for every intent whose year filter has `year` set (a valid year, so
nonzero by the [1800, 2100] invariant), execution filters rows by equality
on that year and records `"year"` in `applied_filters`; the outcome is
identical whether or not `year_min`/`year_max` are populated alongside. -/
theorem spec_C3_year_precedence (df : DataFrame) (i : QueryIntent) (y : Int)
    (mn mx : Option Int) (h : 1800 ≤ y) :
    filteredState df { i with year_filter := some ⟨some y, mn, mx⟩ } =
      ((applyCountryFilter df.rows i.country).1.filter (fun r => r.year == some y),
       (applyCountryFilter df.rows i.country).2 ++ [("year", toString y)]) ∧
    filteredState df { i with year_filter := some ⟨some y, mn, mx⟩ } =
      filteredState df { i with year_filter := some ⟨some y, none, none⟩ } := by
  have hy : truthyInt (some y) = true := by
    simp [truthyInt]
    omega
  constructor
  · simp [filteredState, applyYearFilter, hy]
  · simp [filteredState, applyYearFilter, hy]

/-- Witness for C3 at a concrete dataframe and intent. -/
theorem spec_C3_year_precedence_witness :
    filteredState dfChina { intentChinaSum with year_filter := some ⟨some 2020, some 1990, some 2021⟩ } =
      ((applyCountryFilter dfChina.rows intentChinaSum.country).1.filter
         (fun r => r.year == some 2020),
       (applyCountryFilter dfChina.rows intentChinaSum.country).2 ++ [("year", toString (2020 : Int))]) ∧
    filteredState dfChina { intentChinaSum with year_filter := some ⟨some 2020, some 1990, some 2021⟩ } =
      filteredState dfChina { intentChinaSum with year_filter := some ⟨some 2020, none, none⟩ } :=
  spec_C3_year_precedence dfChina intentChinaSum 2020 (some 1990) (some 2021) (by norm_num)

/-! ### C4 — total co2 resolution never picks a sector-specific column -/

theorem totalColumn_co2_shape (cols : List String) (c : String)
    (h : totalColumn cols "co2" = some c) :
    strLower c = "co2" ∨ strLower c = "co2_emissions" ∨ strLower c = "co2_per_capita" := by
  unfold totalColumn at h
  cases h1 : cols.find? (fun col => strLower col == "co2") with
  | some c1 =>
    rw [h1] at h
    have := List.find?_some h1
    left
    cases h
    exact eq_of_beq (by simpa using this)
  | none =>
    rw [h1] at h
    cases h2 : findExactCol cols ("co2" ++ "") with
    | some c2 =>
      rw [h2] at h
      have := List.find?_some h2
      left
      cases h
      have h3 : strLower c = strLower ("co2" ++ "") := eq_of_beq (by simpa using this)
      simpa using h3
    | none =>
      rw [h2] at h
      cases h3 : findExactCol cols ("co2" ++ "_emissions") with
      | some c3 =>
        rw [h3] at h
        have := List.find?_some h3
        right; left
        cases h
        have h4 : strLower c = strLower ("co2" ++ "_emissions") := eq_of_beq (by simpa using this)
        simpa using h4
      | none =>
        rw [h3] at h
        have := List.find?_some h
        right; right
        have h4 : strLower c = strLower ("co2" ++ "_per_capita") := eq_of_beq (by simpa using this)
        simpa using h4

theorem fallbackColumn_excludes (cols : List String) (gs c : String)
    (h : fallbackColumn cols gs = some c) :
    strContains (strLower c) "cement" = false ∧ strContains (strLower c) "coal" = false ∧
    strContains (strLower c) "oil" = false ∧ strContains (strLower c) "gas" = false := by
  have hp := List.find?_some h
  simp only [Bool.and_eq_true, Bool.not_eq_true'] at hp
  exact ⟨hp.1.1.1.2, hp.1.1.2, hp.1.2, hp.2⟩

/-- C4: for every dataset schema, resolving gas co2 with sector total never
returns a column whose (lowered) name contains the sector markers
"cement", "coal" or "oil", even when such columns exist in the schema. -/
theorem spec_C4_total_resolution_clean (cols : List String) (c : String)
    (h : getColumnName cols (some Gas.co2) (some Sector.total) = some c) :
    strContains (strLower c) "cement" = false ∧ strContains (strLower c) "coal" = false ∧
    strContains (strLower c) "oil" = false := by
  simp only [getColumnName, Gas.value] at h
  have hgs : strLower "co2" = "co2" := by decide
  rw [hgs] at h
  simp only [decide_True, Bool.true_or, if_true] at h
  cases htc : totalColumn cols "co2" with
  | some c1 =>
    rw [htc] at h
    cases h
    rcases totalColumn_co2_shape cols c htc with h1 | h1 | h1 <;> rw [h1] <;> refine ⟨?_, ?_, ?_⟩ <;> decide
  | none =>
    rw [htc] at h
    have := fallbackColumn_excludes cols "co2" c h
    exact ⟨this.1, this.2.1, this.2.2.1⟩

/-- Witness for C4: a schema containing `cement_co2` resolves (co2, total)
to the clean `co2` column. -/
theorem spec_C4_total_resolution_clean_witness :
    strContains (strLower "co2") "cement" = false ∧
    strContains (strLower "co2") "coal" = false ∧
    strContains (strLower "co2") "oil" = false :=
  spec_C4_total_resolution_clean ["country", "year", "cement_co2", "co2"] "co2" (by decide)

/-! ### C7 — unit derivation -/

/-- C7 counterexample: for the requested gas methane resolved to the column
`methane`, the code derives the unit "tonnes", while the claim's rule
("contains the gas token → million tonnes") derives "million tonnes". -/
theorem spec_C7_counterexample :
    getUnit "methane" = "tonnes" ∧ unitSpecC7 "methane" Gas.methane = "million tonnes" := by
  constructor <;> decide

/-- C7 amended: the unit is "tonnes per capita" when the column contains
"per_capita", else "million tonnes" when it contains the literal token
"co2" (regardless of the requested gas), else "tonnes". -/
theorem spec_C7_amended_unit (col : String) (g : Gas) :
    getUnit col = unitSpecC7Amended col g := rfl

/-! ### C10 — underspecified intents are gated before validation -/

/-- C10: an extracted intent that is not flagged greeting/small-talk/
explanatory and has no country, no year value, no metric(s) and no sector
is routed to the clarification outcome for any validator and executor —
i.e. before the Validator is ever invoked — regardless of its
`needs_clarification` flag. -/
theorem spec_C10_underspecified_gate
    (validate : QueryIntent → ValidationOutcomeModel)
    (exec : QueryIntent → ExecutionResult) (intent : QueryIntent)
    (hg : intent.is_greeting = false) (hs : intent.is_small_talk = false)
    (he : intent.is_explanatory = false)
    (hc : intent.country = none)
    (hy : intent.year_filter = none ∨
          ∃ yf, intent.year_filter = some yf ∧ yf.year = none ∧
                yf.year_min = none ∧ yf.year_max = none)
    (hm : intent.metric = none)
    (hms : intent.metrics = none ∨ intent.metrics = some [])
    (hsec : intent.sector = none) :
    routePost validate exec intent = RouteState.clarificationUnderspecified := by
  have hu : is_underspecified intent = true := by
    simp only [is_underspecified, hc, hm, hsec]
    rcases hy with hy | ⟨yf, hyf, h1, h2, h3⟩
    · rcases hms with hms | hms <;> simp [hy, hms]
    · rcases hms with hms | hms <;> simp [hyf, h1, h2, h3, hms]
  simp [routePost, hg, hs, he, hu]

/-- Witness for C10: the empty intent with an arbitrary validator and
executor. -/
theorem spec_C10_underspecified_gate_witness :
    routePost (fun _ => ValidationOutcomeModel.invalid []) (fun _ => {}) {} =
      RouteState.clarificationUnderspecified :=
  spec_C10_underspecified_gate _ _ _ rfl rfl rfl rfl (Or.inl rfl) rfl (Or.inl rfl) rfl

/-! ### C1 — zero matching rows -/

/-- C1 counterexample: filtering `dfChina` by country France matches zero
rows; `execute` returns `record_count = 0` but with the `error` field SET
(to the no-data message) and no per-metric `values`, and the router
therefore takes the execution-error branch, not the empty fallback. -/
theorem spec_C1_counterexample :
    execute dfChina intentFrance =
      { value := none, values := none, unit := none,
        applied_filters := [("country", "France")], record_count := 0,
        incomputable_metrics := none, error := some noDataMsg } ∧
    routeAfterExecution false (execute dfChina intentFrance) =
      RouteState.executionError := by
  constructor <;> decide

/-- C1 amended: when the column resolves but the filtered non-null values
are empty, `execute` returns `record_count = 0`, `value = None`, no
`values` mapping, and `error` set to the no-data message; the router then
routes this result through the execution-error branch (which precedes the
`record_count == 0` check), for any low-confidence flag. -/
theorem spec_C1_amended_empty_result (df : DataFrame) (i : QueryIntent)
    (c : String) (lc : Bool)
    (hcol : getColumnName df.columns i.gas i.sector = some c)
    (hne : c.isEmpty = false) (hmem : df.columns.contains c = true)
    (hvals : (filteredState df i).1.filterMap (fun r => lookupVal r c) = []) :
    execute df i =
      { value := none, values := none, unit := none,
        applied_filters := (filteredState df i).2, record_count := 0,
        incomputable_metrics := none, error := some noDataMsg } ∧
    routeAfterExecution lc (execute df i) = RouteState.executionError := by
  have h1 : execute df i =
      { value := none, values := none, unit := none,
        applied_filters := (filteredState df i).2, record_count := 0,
        incomputable_metrics := none, error := some noDataMsg } := by
    simp only [execute, hcol]
    rw [if_neg (by rw [hne, hmem]; simp)]
    rw [hvals]
    rfl
  refine ⟨h1, ?_⟩
  rw [h1]
  simp [routeAfterExecution]

/-- Witness for the amended C1 at a concrete dataframe and intent. -/
theorem spec_C1_amended_empty_result_witness :
    execute dfChina intentFrance =
      { value := none, values := none, unit := none,
        applied_filters := (filteredState dfChina intentFrance).2, record_count := 0,
        incomputable_metrics := none, error := some noDataMsg } ∧
    routeAfterExecution true (execute dfChina intentFrance) =
      RouteState.executionError :=
  spec_C1_amended_empty_result dfChina intentFrance "co2" true
    (by decide) (by decide) (by decide) (by decide)

/-! ### C2 — the heuristic extraction path can raise -/

/-- C2: on the no-provider heuristic path, the query
"co2 from 1500 to 1600" parses a year range below 1800, and the pydantic
year validator raises out of `extract_intent` (there is no `try/except`
on this path), instead of returning an intent with
`needs_clarification = true`. -/
theorem spec_C2_heuristic_path_raises :
    extractIntentHeuristic "co2 from 1500 to 1600" { countries := [], yearMax := some 2022 } =
      Except.error "Year must be between 1800 and 2100" := by rfl

/-! ### C5 — an incomputable metric poisons the whole result -/

/-- C5: on a single-year series with requested metrics [change, sum], the
metric loop does record `change = None` with `incomputable = [change]` and
still computes `sum`, exactly as the claim says — but the
`ExecutionResult(values=...)` construction then fails pydantic validation
(`Dict[str, float]` rejects `None`), so `execute` actually returns an
error-only result with no `values` and no `incomputable_metrics` at all. -/
theorem spec_C5_incomputable_poisons_result :
    metricLoop [1000] (some [((2020 : Int), (1000 : Rat))]) [Metric.change, Metric.sum] =
      ([("change", none), ("sum", some 1000)], ["change"]) ∧
    execute dfChinaOneYear intentChinaChangeSum =
      { value := none, values := none, unit := none,
        applied_filters := [("country", "China")], record_count := 0,
        incomputable_metrics := none, error := some pydanticErrMsg } := by
  constructor <;> decide

/-! ### C6 — `value` mirroring -/

/-- C6 counterexample: `intentChinaChange` requests exactly one metric
(change), but on `dfChina` the derived `change_pct` entry makes the
`values` dict two entries long, so `value` is NOT populated with the
single requested metric's result. -/
theorem spec_C6_counterexample :
    intentChinaChange.metrics = some [Metric.change] ∧
    (execute dfChina intentChinaChange).values =
      some [("change_pct", some 10), ("change", some 100)] ∧
    (execute dfChina intentChinaChange).value = none ∧
    ¬ (execute dfChina intentChinaChange).value = some 100 := by
  refine ⟨by decide, by decide, by decide, by decide⟩

theorem assembleResult_value_of_values (af : List (String × String)) (rc : Nat)
    (u : String) (results : List (String × Option Rat)) (incomp : List String)
    (l : List (String × Option Rat))
    (h : (assembleResult af rc u results incomp).values = some l) :
    (assembleResult af rc u results incomp).value = singleValue l := by
  by_cases hall : results.all (fun p => p.2.isSome)
  · have hv : (assembleResult af rc u results incomp).values = some results := by
      unfold assembleResult
      rw [if_pos hall]
    rw [hv] at h
    have hl : results = l := by injection h
    subst hl
    unfold assembleResult
    rw [if_pos hall]
  · unfold assembleResult at h
    rw [if_neg hall] at h
    simp at h

/-- C6 amended: `value` mirrors the unique entry of the computed `values`
mapping exactly when that mapping has exactly one entry — not when exactly
one metric was requested (a single `change` request can yield two entries
via `change_pct`, and duplicated requested metrics can yield one). -/
theorem spec_C6_amended_value_mirror (df : DataFrame) (i : QueryIntent)
    (l : List (String × Option Rat)) (h : (execute df i).values = some l) :
    (execute df i).value = singleValue l := by
  simp only [execute] at h ⊢
  split at h
  next heq => simp at h
  next col heq =>
    by_cases h1 : (col.isEmpty || !df.columns.contains col) = true
    · rw [if_pos h1] at h
      simp at h
    · rw [if_neg h1] at h ⊢
      by_cases h2 :
          ((filteredState df i).1.filterMap (fun r => lookupVal r col)).isEmpty = true
      · rw [if_pos h2] at h
        simp at h
      · rw [if_neg h2] at h ⊢
        exact assembleResult_value_of_values _ _ _ _ _ _ h

/-- Witness for the amended C6: a single-entry values dict is mirrored. -/
theorem spec_C6_amended_value_mirror_witness :
    (execute dfChina intentChinaSum).value =
      singleValue [("sum", some 2100)] :=
  spec_C6_amended_value_mirror dfChina intentChinaSum
    [("sum", some 2100)] (by decide)

/-! ### C8 — bare-year parsing -/

/-- C8 counterexample: "co2 emissions in 1850" contains a bare year token
matching the spec's pattern `(18|19|20)\d{2}`, but the code's pattern is
`(19|20)\d{2}`, so the extractor returns an intent with NO year filter. -/
theorem spec_C8_counterexample :
    extractIntentHeuristic "co2 emissions in 1850" { countries := [], yearMax := some 2022 } =
      Except.ok
        { country := none, gas := some Gas.co2, sector := some Sector.total,
          metric := none, metrics := none, year_filter := none,
          is_greeting := false, is_small_talk := false, is_explanatory := false,
          low_confidence := false, needs_clarification := false,
          clarification_question := none } ∧
    searchBareYearSpec none (strLower "co2 emissions in 1850").data = some 1850 := by
  constructor
  · rfl
  · decide

theorem digitVal_le_of_isDigit (c : Char) (h : c.isDigit = true) : digitVal c ≤ 9 := by
  simp [Char.isDigit] at h
  obtain ⟨h1, h2⟩ := h
  have h3 : (48 : Nat) ≤ c.val.toNat := by simpa using h1
  have h4 : c.val.toNat ≤ (57 : Nat) := by simpa using h2
  have h5 : c.toNat = c.val.toNat := rfl
  have h6 : ('0').toNat = 48 := rfl
  simp only [digitVal, h5, h6]
  omega

theorem bareYearAt_bounds (prev : Option Char) (cs : List Char) (y : Nat)
    (h : bareYearAt prev cs = some y) : 1900 ≤ y ∧ y ≤ 2099 := by
  rcases cs with _ | ⟨a, _ | ⟨b, _ | ⟨c, _ | ⟨d, rest⟩⟩⟩⟩ <;>
    simp only [bareYearAt] at h
  all_goals try cases h
  split at h
  · rename_i hcond
    injection h with hy
    simp only [Bool.and_eq_true, Bool.or_eq_true, beq_iff_eq] at hcond
    obtain ⟨⟨⟨⟨_, hab⟩, hc⟩, hd⟩, _⟩ := hcond
    have hcb := digitVal_le_of_isDigit c hc
    have hdb := digitVal_le_of_isDigit d hd
    rcases hab with ⟨ha, hb⟩ | ⟨ha, hb⟩ <;> subst ha hb <;> rw [← hy] <;>
      simp only [show digitVal '1' = 1 from rfl, show digitVal '9' = 9 from rfl,
        show digitVal '2' = 2 from rfl, show digitVal '0' = 0 from rfl] <;>
      omega
  · exact absurd h (by simp)

theorem searchBareYear1920_bounds (prev : Option Char) (cs : List Char) (y : Nat)
    (h : searchBareYear1920 prev cs = some y) : 1900 ≤ y ∧ y ≤ 2099 := by
  induction cs generalizing prev with
  | nil => simp [searchBareYear1920] at h
  | cons c cs ih =>
    simp only [searchBareYear1920] at h
    cases hb : bareYearAt prev (c :: cs) with
    | some z =>
      rw [hb] at h
      injection h with h1
      subst h1
      exact bareYearAt_bounds _ _ _ hb
    | none =>
      rw [hb] at h
      exact ih (some c) h

theorem parseYearFilter_bare (uq : String) (yrmax : Option Int) (y : Nat)
    (h1 : searchFromTo uq = none) (h2 : searchBetween uq = none)
    (h3 : searchLastN uq = none ∨ yrmax = none)
    (h4 : strContains uq "last year" = false ∨ yrmax = none)
    (h5 : searchBareYear1920 none uq.data = some y) :
    parseYearFilter uq yrmax =
      some { year := some (y : Int), year_min := none, year_max := none } := by
  unfold parseYearFilter
  rw [h1, h2]
  have hcond : (strContains uq "last year" && yrmax.isSome) = false := by
    rcases h4 with h4 | h4 <;> simp [h4]
  cases hln : searchLastN uq with
  | some n =>
    have hym : yrmax = none := by
      rcases h3 with h3 | h3
      · rw [hln] at h3; exact absurd h3 (by simp)
      · exact h3
    subst hym
    simp only [hcond, Bool.false_eq_true, if_false, h5]
  | none =>
    cases yrmax with
    | none => simp only [hcond, Bool.false_eq_true, if_false, h5]
    | some ym => simp only [hcond, Bool.false_eq_true, if_false, h5]

/-- C8 amended: when none of the earlier year patterns applies (per the
code's guards), the heuristic extractor sets `year_filter.year` from a bare
4-digit token matching `(19|20)\d{2}` — not `(18|19|20)\d{2}` as the spec
says, so bare years 1900–2099 are parsed and 1800s years are not. -/
theorem spec_C8_amended_bare_year (uq : String) (sch : SchemaMetadata) (y : Nat)
    (h1 : searchFromTo (strLower uq) = none)
    (h2 : searchBetween (strLower uq) = none)
    (h3 : searchLastN (strLower uq) = none ∨ sch.yearMax = none)
    (h4 : strContains (strLower uq) "last year" = false ∨ sch.yearMax = none)
    (h5 : searchBareYear1920 none (strLower uq).data = some y) :
    ∃ qi, extractIntentHeuristic uq sch = Except.ok qi ∧
      qi.year_filter =
        some { year := some (y : Int), year_min := none, year_max := none } := by
  have hpf := parseYearFilter_bare (strLower uq) sch.yearMax y h1 h2 h3 h4 h5
  have hb := searchBareYear1920_bounds none (strLower uq).data y h5
  have hy1 : validYearOpt (some (y : Int)) = true := by
    obtain ⟨hb1, hb2⟩ := hb
    simp only [validYearOpt, Bool.and_eq_true, decide_eq_true_eq]
    omega
  have hcond : (validYearOpt (some (y : Int)) && validYearOpt none && validYearOpt none) = true := by
    rw [hy1]
    decide
  have hv : validateYearFilter
      (some { year := some (y : Int), year_min := none, year_max := none }) =
      Except.ok () := by
    simp only [validateYearFilter]
    rw [if_pos hcond]
  simp only [extractIntentHeuristic, hpf, hv]
  exact ⟨_, rfl, rfl⟩

/-- Witness for the amended C8 at a concrete query. -/
theorem spec_C8_amended_bare_year_witness :
    ∃ qi, extractIntentHeuristic "co2 in 1965" { countries := [], yearMax := some 2022 } =
        Except.ok qi ∧
      qi.year_filter =
        some { year := some ((1965 : Nat) : Int), year_min := none, year_max := none } :=
  spec_C8_amended_bare_year "co2 in 1965" { countries := [], yearMax := some 2022 } 1965
    (by decide) (by decide) (Or.inl (by decide)) (Or.inl (by decide)) (by decide)

/-! ### C9 — `change_pct` presence -/

theorem metricStep_change_pct (vals : List Rat) (ts : List (Int × Rat))
    (acc : List (String × Option Rat) × List String) (m : Metric)
    (hts : 2 ≤ ts.length) :
    dictLookup (metricStep vals (some ts) acc m).1 "change_pct" =
      if m = Metric.change ∧ firstVal ts ≠ 0
      then some (some ((lastVal ts - firstVal ts) / firstVal ts * 100))
      else dictLookup acc.1 "change_pct" := by
  cases m
  case change =>
    simp only [metricStep, Metric.value]
    rw [if_pos hts]
    by_cases hz : firstVal ts = 0
    · rw [if_pos (show (firstVal ts == 0) = true by simpa using hz)]
      rw [dictLookup_dictSet_ne _ _ _ _ (by decide)]
      rw [if_neg (by rintro ⟨_, h2⟩; exact h2 hz)]
    · rw [if_neg (show ¬ (firstVal ts == 0) = true by simpa using hz)]
      rw [dictLookup_dictSet_ne _ _ _ _ (by decide)]
      rw [show ("change" ++ "_pct" : String) = "change_pct" from by decide]
      rw [dictLookup_dictSet_self]
      rw [if_pos (⟨by trivial, hz⟩ : _ ∧ _)]
  case trend =>
    simp only [metricStep, Metric.value]
    rw [if_pos hts]
    rw [dictLookup_dictSet_ne _ _ _ _ (by decide)]
    rw [if_neg (by rintro ⟨h, _⟩; cases h)]
  all_goals
    simp only [metricStep, Metric.value]
  all_goals
    rw [dictLookup_dictSet_ne _ _ _ _ (by decide)]
  all_goals
    rw [if_neg (by rintro ⟨h, _⟩; cases h)]

theorem metricFold_change_pct (vals : List Rat) (ts : List (Int × Rat))
    (hts : 2 ≤ ts.length) (ms : List Metric)
    (acc : List (String × Option Rat) × List String) :
    dictLookup (ms.foldl (metricStep vals (some ts)) acc).1 "change_pct" =
      if Metric.change ∈ ms ∧ firstVal ts ≠ 0
      then some (some ((lastVal ts - firstVal ts) / firstVal ts * 100))
      else dictLookup acc.1 "change_pct" := by
  induction ms generalizing acc with
  | nil => simp
  | cons m rest ih =>
    simp only [List.foldl_cons]
    rw [ih]
    rw [metricStep_change_pct vals ts acc m hts]
    by_cases hf : firstVal ts = 0
    · simp [hf]
    · by_cases hm : Metric.change ∈ rest
      · simp [hm, hf]
      · by_cases hmc : m = Metric.change
        · simp [hm, hf, hmc]
        · simp [hm, hf, hmc, Ne.symm hmc]

/-- C9: whenever the change metric is computed over a year-indexed series
with at least 2 distinct years, the results mapping gets a `change_pct`
entry equal to `(last - first) / first * 100` when the first-year
aggregate is nonzero, and has NO `change_pct` key at all when the
first-year aggregate is exactly 0. -/
theorem spec_C9_change_pct (vals : List Rat) (ts : List (Int × Rat))
    (ms : List Metric) (hch : Metric.change ∈ ms) (hts : 2 ≤ ts.length) :
    dictLookup (metricLoop vals (some ts) ms).1 "change_pct" =
      if firstVal ts ≠ 0
      then some (some ((lastVal ts - firstVal ts) / firstVal ts * 100))
      else none := by
  unfold metricLoop
  rw [metricFold_change_pct vals ts hts ms ([], [])]
  by_cases hf : firstVal ts = 0
  · simp [hf, dictLookup]
  · simp [hch, hf]

/-- Witness for C9 on a concrete two-year series. -/
theorem spec_C9_change_pct_witness :
    dictLookup (metricLoop [1, 3]
        (some [((2000 : Int), (1 : Rat)), (2001, 3)]) [Metric.change]).1 "change_pct" =
      if firstVal [((2000 : Int), (1 : Rat)), (2001, 3)] ≠ 0
      then some (some ((lastVal [((2000 : Int), (1 : Rat)), (2001, 3)] -
          firstVal [((2000 : Int), (1 : Rat)), (2001, 3)]) /
          firstVal [((2000 : Int), (1 : Rat)), (2001, 3)] * 100))
      else none :=
  spec_C9_change_pct [1, 3] [((2000 : Int), (1 : Rat)), (2001, 3)] [Metric.change]
    (by decide) (by decide)

end CarbonLens
